import Mathlib

/-!
Shallow embedding of `geopandas/geodataframe.py` (class `GeoDataFrame`).

The tabular engine (pandas), the geometry library (shapely) and the vector-file
library (fiona) are external collaborators; they are modelled by the contracts
the source relies on:
  * a data frame is an ordered list of named columns over a row index,
  * `frame[name]` returns the named column, `frame[name] = values` overwrites
    it (or appends it at the end of the column list),
  * `frame.drop(label, inplace=True)` removes the rows whose INDEX label equals
    `label` (pandas' default `axis=0`) and raises when no such row exists,
  * `shapely.geometry.mapping(g)` turns a geometry object into its GeoJSON
    dictionary, and `g.geom_type` is the shape-category name,
  * `json.dumps` renders scalars, with float NaN rendered as the non-standard
    `NaN` token and `None` as `null`.

Fallible Python code is modelled with `Except Err`; a returned `.error` is a
raised exception.  Coordinate reference systems are opaque descriptors.
-/

namespace GeoPandas

/-- Opaque coordinate-reference-system descriptor (an opaque key-value mapping
in the source; its content is never inspected by `geodataframe.py`). -/
abbrev CRS := String

/-- A geometry object of the collaborating geometry library: the model keeps
its shape-category name (`geom_type` in shapely) and an opaque coordinate
payload. -/
structure Geom where
  geomType : String
  coords : String
deriving DecidableEq, Repr

/-- One cell of the table: an opaque non-missing scalar (string or number),
the missing-value marker NaN, Python `None`, or a geometry object. -/
inductive Cell
  | str (s : String)
  | num (n : Int)
  | nan
  | pynone
  | geom (g : Geom)
deriving DecidableEq, Repr

/-- `pandas.isnull`: NaN and `None` are the missing values. -/
def Cell.isna : Cell → Bool
  | .nan => true
  | .pynone => true
  | _ => false

/-- A crs descriptor as a broadcast column value (`result['crs'] = self.crs`):
the opaque descriptor itself, or `None` when no crs is set. -/
def Cell.ofCrs : Option CRS → Cell
  | some c => .str c
  | none => .pynone

/-- A row label of the pandas index (an integer for the default range index,
or a string). -/
inductive Label
  | nat (n : Nat)
  | str (s : String)
deriving DecidableEq, Repr

/-- Python `str(label)`. -/
def Label.render : Label → String
  | .nat n => toString n
  | .str s => s

/-- The exceptions raised by the source (or by a collaborator on its behalf). -/
inductive Err
  | valueError (msg : String)
  | keyError (msg : String)
  | attributeError (msg : String)
  | typeError (msg : String)
deriving DecidableEq, Repr

/-- A pandas `DataFrame`: a row index plus an ordered list of named columns. -/
structure Frame where
  index : List Label
  cols : List (String × List Cell)
deriving DecidableEq, Repr

def Frame.columnNames (f : Frame) : List String := f.cols.map Prod.fst

def Frame.nrows (f : Frame) : Nat := f.index.length

/-- `frame[name]` on the underlying DataFrame: the first column of that name
(column names are unique in every frame the claims quantify over). -/
def Frame.getCol? (f : Frame) (name : String) : Option (List Cell) :=
  (f.cols.find? (fun c => c.1 == name)).map Prod.snd

/-- `frame[name] = values`: overwrite the named column in place, or append a
new column at the end. -/
def Frame.setCol (f : Frame) (name : String) (vals : List Cell) : Frame :=
  if name ∈ f.columnNames then
    ⟨f.index, f.cols.map (fun c => if c.1 = name then (name, vals) else c)⟩
  else
    ⟨f.index, f.cols ++ [(name, vals)]⟩

/-- The row at position `i` as the (column-name, cell) list that `iterrows`
yields for it. -/
def Frame.rowAt (f : Frame) (i : Nat) : List (String × Cell) :=
  f.cols.map (fun c => (c.1, c.2.getD i Cell.nan))

/-- `frame.iterrows()`: the (index label, row) pairs in index order. -/
def Frame.rows (f : Frame) : List (Label × List (String × Cell)) :=
  (List.range f.nrows).map (fun i => (f.index.getD i (Label.nat 0), f.rowAt i))

/-- pandas `frame.drop(label, inplace=True)` with the default `axis=0`: remove
the rows whose index label equals `label`; pandas raises `ValueError` when the
label is not contained in the index. -/
def Frame.dropIndexLabel (f : Frame) (lab : Label) : Except Err Frame :=
  if lab ∈ f.index then
    .ok ⟨f.index.filter (fun l => l != lab),
         f.cols.map (fun c =>
           (c.1, ((f.index.zip c.2).filter (fun p => p.1 != lab)).map Prod.snd))⟩
  else
    .error (.valueError ("labels [" ++ lab.render ++ "] not contained in axis"))

/-- The class attribute `_geometry_column_name = 'geometry'`. -/
def defaultGeoColName : String := "geometry"

/-- The construction error message.  The source concatenates the two adjacent
string literals without a separating space, hence "includea". -/
def mustPassMsg (name : String) : String :=
  "Must either pass geometry explicitly or includea column called " ++ name

/-- A `GeoDataFrame`: the underlying frame plus the two metadata attributes
(`crs` and `_geometry_column_name`). -/
structure GeoDataFrame where
  frame : Frame
  crs : Option CRS
  geometry_column_name : String
deriving DecidableEq, Repr

/-- `GeoDataFrame.__init__(data, crs=crs)` with no `geometry` keyword: build
the frame, attach the crs, and check that the configured geometry column name
(still the class default at this point) is among the columns. -/
def initNoGeometry (data : Frame) (crs : Option CRS) : Except Err GeoDataFrame :=
  let self : GeoDataFrame := ⟨data, crs, defaultGeoColName⟩
  if defaultGeoColName ∈ data.columnNames then .ok self
  else .error (.valueError (mustPassMsg defaultGeoColName))

/-- `__finalize__(other)`: copy the `_metadata` attributes (`crs` and
`_geometry_column_name`) from `other` onto `self`. -/
def GeoDataFrame.finalizeFrom (self other : GeoDataFrame) : GeoDataFrame :=
  { self with crs := other.crs, geometry_column_name := other.geometry_column_name }

/-- `GeoDataFrame.copy(deep)`: `GeoDataFrame(self._data).__finalize__(self)`.
The fresh instance is validated by `__init__` (against the class-default
geometry column name) BEFORE `__finalize__` propagates the metadata.
Duplicating the storage (`data.copy()` when `deep`) is the identity in a
value-level model, so `deep` does not change the modelled result. -/
def GeoDataFrame.copy (self : GeoDataFrame) (deep : Bool) : Except Err GeoDataFrame :=
  (initNoGeometry self.frame none).map (fun g => g.finalizeFrom self)

/-- The `col` argument of `set_geometry`: a column reference (a name), or a raw
sequence of geometry values (list / array / Series in the source). The
positional-integer fallback `self.columns[col]` is not exercised by string
references (indexing a column Index with a string raises and is swallowed by
the source's `except` clause). -/
inductive GeomInput
  | ref (col : String)
  | seq (vals : List Cell)
deriving DecidableEq, Repr

/-- `GeoDataFrame.set_geometry(col, drop, inplace)`.  When not in place the
source first takes `self.copy()` (which re-runs `__init__` on the data).  For a
column reference, `frame[col]` must resolve (otherwise `KeyError`); with `drop`
and a reference different from the geometry column name the source assigns the
column into the geometry slot and then calls `frame.drop(col, inplace=True)`,
i.e. pandas' default axis-0 (row label) drop; with `drop=False` it only
re-designates the geometry column name. -/
def GeoDataFrame.set_geometry (self : GeoDataFrame) (colArg : GeomInput)
    (drop : Bool) (inplace : Bool) : Except Err GeoDataFrame := do
  let frame ← if inplace then pure self else self.copy true
  match colArg with
  | .seq level =>
      pure { frame with frame := frame.frame.setCol frame.geometry_column_name level }
  | .ref col =>
      match frame.frame.getCol? col with
      | none => throw (Err.keyError col)
      | some level =>
          if drop then
            if col ≠ frame.geometry_column_name then
              let f1 := frame.frame.setCol frame.geometry_column_name level
              let f2 ← f1.dropIndexLabel (Label.str col)
              pure { frame with frame := f2 }
            else
              pure frame
          else
            pure { frame with geometry_column_name := col }

/-- The final check of `__init__`: `if self._geometry_column_name not in self:
raise ValueError(...)`. -/
def initCheck (self : GeoDataFrame) : Except Err GeoDataFrame :=
  if self.geometry_column_name ∈ self.frame.columnNames then pure self
  else throw (Err.valueError (mustPassMsg self.geometry_column_name))

/-- `GeoDataFrame.__init__(data, crs=crs, geometry=geometry)`: build the frame,
attach the crs, promote the `geometry` argument (if any) via
`set_geometry(geometry, inplace=True)` (with the default `drop=True`), then
fail with the construction `ValueError` when the configured geometry column
name is not among the columns. -/
def GeoDataFrame.init (data : Frame) (crs : Option CRS) (geometry : Option GeomInput) :
    Except Err GeoDataFrame :=
  let self0 : GeoDataFrame := ⟨data, crs, defaultGeoColName⟩
  (match geometry with
   | none => pure self0
   | some g => self0.set_geometry g true true) >>= initCheck

/-- The body of the function `geometry_setter` (decorated `@geometry.setter`):
raise the guiding `ValueError` when `col` is an existing column, otherwise
delegate to `set_geometry(col, inplace=True)`.  The membership test `col in
self` is a column-name test; a raw sequence is never among the column names. -/
def GeoDataFrame.geometry_setter (self : GeoDataFrame) (col : GeomInput) :
    Except Err GeoDataFrame :=
  match col with
  | .ref c =>
      if c ∈ self.frame.columnNames then
        .error (.valueError "Use set_geometry() to set an existing column as geometry")
      else
        self.set_geometry (.ref c) true true
  | .seq v => self.set_geometry (.seq v) true true

/-- A Python property descriptor, reduced to what attribute assignment needs:
whether it has a setter (`fset is not None`). -/
structure PyProperty where
  hasSetter : Bool
deriving DecidableEq, Repr

/-- The class-attribute bindings produced by the decorators in the source:
`@property def geometry(self)` binds a getter-only property to the name
"geometry"; `@geometry.setter def geometry_setter(self, col)` builds a
getter+setter property but binds it to the decorated function's own name,
"geometry_setter", leaving the class attribute "geometry" without a setter. -/
def geoClassProperties : List (String × PyProperty) :=
  [("geometry", ⟨false⟩), ("geometry_setter", ⟨true⟩)]

/-- Semantics of the assignment `self.geometry = col`: Python looks the name
"geometry" up in the class attributes; a property without a setter makes the
assignment raise `AttributeError` (the guard body would run only if the
property bound to "geometry" had a setter). -/
def assignGeometryAttr (self : GeoDataFrame) (col : GeomInput) :
    Except Err GeoDataFrame :=
  match geoClassProperties.lookup "geometry" with
  | some p =>
      if p.hasSetter then self.geometry_setter col
      else .error (.attributeError "cannot set attribute")
  | none => pure self

/-- A key passed to `GeoDataFrame.__getitem__`: a single column name or a list
of column names. -/
inductive Key
  | str (s : String)
  | cols (ks : List String)
deriving DecidableEq, Repr

/-- A pandas `Series`: name, index, values. -/
structure Series where
  name : String
  index : List Label
  values : List Cell
deriving DecidableEq, Repr

/-- A `GeoSeries`: a Series re-tagged with a crs attribute. -/
structure GeoSeries where
  series : Series
  crs : Option CRS
deriving DecidableEq, Repr

/-- The possible results of `GeoDataFrame.__getitem__`, after the source's
re-tagging of `result.__class__`. -/
inductive GetResult
  | series (s : Series)
  | geoseries (g : GeoSeries)
  | frame (f : Frame)
  | geoframe (g : GeoDataFrame)
deriving DecidableEq, Repr

/-- Column selection of the underlying DataFrame for a list key: the named
columns in the requested order; `KeyError` on a missing name. -/
def selectColsAux (f : Frame) : List String → Except Err (List (String × List Cell))
  | [] => .ok []
  | k :: ks =>
      match f.getCol? k with
      | none => .error (Err.keyError k)
      | some v => (selectColsAux f ks).map (fun rest => (k, v) :: rest)

/-- `super().__getitem__(key)` for a list key. -/
def superGetitemCols (f : Frame) (ks : List String) : Except Err Frame :=
  (selectColsAux f ks).map (fun cs => ⟨f.index, cs⟩)

/-- `GeoDataFrame.__getitem__`:
  * a string key equal to the geometry column name: the column with its class
    re-tagged to `GeoSeries` and `result.crs = self.crs`;
  * a string key naming another column: the plain column Series;
  * a list key whose selection still contains the geometry column: the
    selection re-tagged to `GeoDataFrame` with `result.crs = self.crs` (the
    plain `__class__` reassignment leaves `_geometry_column_name` at the class
    default);
  * a list key whose selection lost the geometry column: a plain DataFrame
    with `result['crs'] = self.crs` broadcast into a column named "crs". -/
def GeoDataFrame.getitem (self : GeoDataFrame) : Key → Except Err GetResult
  | .str s => do
      let vals ← match self.frame.getCol? s with
        | some v => pure v
        | none => throw (Err.keyError s)
      if s = self.geometry_column_name then
        pure (.geoseries ⟨⟨s, self.frame.index, vals⟩, self.crs⟩)
      else
        pure (.series ⟨s, self.frame.index, vals⟩)
  | .cols ks => do
      let f ← superGetitemCols self.frame ks
      if self.geometry_column_name ∈ f.columnNames then
        pure (.geoframe ⟨f, self.crs, defaultGeoColName⟩)
      else
        pure (.frame (f.setCol "crs" (List.replicate f.nrows (Cell.ofCrs self.crs))))

/-- A JSON value as produced by `json.dumps`: the `nan` constructor is the
non-standard numeric `NaN` token that `json.dumps` emits for float NaN. -/
inductive Json
  | null
  | nan
  | str (s : String)
  | num (n : Int)
  | obj (fields : List (String × Json))
  | arr (elems : List Json)
deriving Repr

/-- `json.dumps` on one scalar value: strings and numbers render as
themselves, float NaN as the non-standard token, `None` as `null`; a raw
geometry object is not JSON serializable. -/
def scalarToJson : Cell → Except Err Json
  | .str s => .ok (.str s)
  | .num n => .ok (.num n)
  | .nan => .ok .nan
  | .pynone => .ok .null
  | .geom _ => .error (.typeError "Object is not JSON serializable")

/-- `shapely.geometry.mapping(g)`: the GeoJSON dictionary of a geometry. -/
def mappingJson (g : Geom) : Json :=
  .obj [("type", .str g.geomType), ("coordinates", .str g.coords)]

/-- `mapping(row[geo_col_name])`: only a geometry object has the geo
interface; `mapping` of anything else (NaN, None, a scalar) raises. -/
def mappingCell : Cell → Except Err Json
  | .geom g => .ok (mappingJson g)
  | _ => .error (.attributeError "object has no geo interface")

/-- The three `na` policies of `to_json` applied to one row:
`fill_none` (na="null") replaces every missing value by `None`;
`row.dropna()` (na="drop") removes the missing entries;
na="keep" passes the row through unmodified. -/
def applyNa (na : String) (row : List (String × Cell)) : List (String × Cell) :=
  if na = "null" then
    row.map (fun p => if p.2.isna then (p.1, Cell.pynone) else p)
  else if na = "drop" then
    row.filter (fun p => !p.2.isna)
  else
    row

/-- The property map of one feature: the row entries other than the geometry
column, each value rendered by `json.dumps`. -/
def propsAux : List (String × Cell) → Except Err (List (String × Json))
  | [] => .ok []
  | p :: ps => do
      let j ← scalarToJson p.2
      let rest ← propsAux ps
      pure ((p.1, j) :: rest)

/-- `feature(i, row)` inside `to_json`: apply the na policy, build the
properties from the non-geometry entries, and build the geometry from
`mapping(row[geo_col_name])`. -/
def jsonFeature (geoName na : String) (lab : Label) (row : List (String × Cell)) :
    Except Err Json := do
  let row2 := applyNa na row
  let props ← propsAux (row2.filter (fun p => p.1 != geoName))
  let geomJson ← (match row2.lookup geoName with
    | some c => mappingCell c
    | none => throw (Err.keyError geoName))
  pure (.obj [("id", .str lab.render), ("type", .str "Feature"),
              ("properties", .obj props), ("geometry", geomJson)])

/-- The list comprehension `[feature(i, row) for i, row in self.iterrows()]`
(left to right, the first raised exception propagates). -/
def featuresAux (geoName na : String) :
    List (Label × List (String × Cell)) → Except Err (List Json)
  | [] => .ok []
  | r :: rs => do
      let f ← jsonFeature geoName na r.1 r.2
      let fs ← featuresAux geoName na rs
      pure (f :: fs)

/-- The recognized na policies of `to_json`. -/
def validNa (na : String) : Bool :=
  na == "null" || na == "drop" || na == "keep"

/-- `GeoDataFrame.to_json(na)`: reject an unknown na policy before anything
else, then serialize a FeatureCollection with one feature per row. -/
def GeoDataFrame.to_json (self : GeoDataFrame) (na : String) : Except Err Json :=
  if validNa na then
    match featuresAux self.geometry_column_name na self.frame.rows with
    | .ok feats =>
        .ok (.obj [("type", .str "FeatureCollection"), ("features", .arr feats)])
    | .error e => .error e
  else
    .error (.valueError ("Unknown na method " ++ na))

/-- Field access on a JSON object. -/
def Json.getField : Json → String → Option Json
  | .obj fs, k => fs.lookup k
  | _, _ => none

/-- The elements of a JSON array (empty for anything else). -/
def Json.arrElems : Json → List Json
  | .arr l => l
  | _ => []

/-- The features list of a GeoJSON document. -/
def docFeatures (doc : Json) : List Json :=
  ((doc.getField "features").getD .null).arrElems

/-- The properties map of a GeoJSON feature. -/
def featProps (f : Json) : List (String × Json) :=
  match f.getField "properties" with
  | some (.obj l) => l
  | _ => []

/-- The longest common prefix of two character lists. -/
def lcp2 : List Char → List Char → List Char
  | a :: as, b :: bs => if a = b then a :: lcp2 as bs else []
  | _, _ => []

/-- `os.path.commonprefix` over character lists: the longest common prefix of
all the strings (empty for an empty list). -/
def lcpMany : List (List Char) → List Char
  | [] => []
  | s :: rest => rest.foldl lcp2 s

/-- `s[::-1]`. -/
def strReverse (s : String) : String := String.mk s.toList.reverse

/-- `os.path.commonprefix` on strings. -/
def commonPrefixOf (l : List String) : String := String.mk (lcpMany (l.map String.toList))

/-- The mixed-geometry-category error message (verbatim from the source,
typos included). -/
def mixedMsg : String :=
  "Geometry column cannot contains mutiple geometry types when writing to file."

/-- The numpy/pandas dtype of a column, restricted to the cell kinds of the
model: any string, geometry or `None` makes the column `object`; a NaN among
numbers makes it float; otherwise integer. -/
inductive Dtype
  | int64
  | float64
  | object
deriving DecidableEq, Repr

def inferDtype (vals : List Cell) : Dtype :=
  if vals.any (fun c => match c with
      | .str _ => true
      | .geom _ => true
      | .pynone => true
      | _ => false) then .object
  else if vals.any (fun c => c == Cell.nan) then .float64
  else .int64

/-- `convert_type` inside `to_file`: `object` dtype becomes "str"; otherwise
the name of the numpy scalar type ("int" / "float"). -/
def convert_type : Dtype → String
  | .object => "str"
  | .int64 => "int"
  | .float64 => "float"

/-- `feature(i, row)` inside `to_file`: same shape as the GeoJSON feature but
with no na processing. -/
def fileFeature (geoName : String) (lab : Label) (row : List (String × Cell)) :
    Except Err Json := do
  let props ← propsAux (row.filter (fun p => p.1 != geoName))
  let geomJson ← (match row.lookup geoName with
    | some c => mappingCell c
    | none => throw (Err.keyError geoName))
  pure (.obj [("id", .str lab.render), ("type", .str "Feature"),
              ("properties", .obj props), ("geometry", geomJson)])

def fileFeaturesAux (geoName : String) :
    List (Label × List (String × Cell)) → Except Err (List Json)
  | [] => .ok []
  | r :: rs => do
      let f ← fileFeature geoName r.1 r.2
      let fs ← fileFeaturesAux geoName rs
      pure (f :: fs)

/-- `self.geometry.geom_type`: the shape-category names of the geometry
column's cells; a non-geometry cell has no `geom_type` attribute. -/
def geomTypeNamesAux : List Cell → Except Err (List String)
  | [] => .ok []
  | c :: cs => do
      let t ← match c with
        | .geom g => pure g.geomType
        | _ => throw (Err.attributeError "object has no attribute geom_type")
      let ts ← geomTypeNamesAux cs
      pure (t :: ts)

/-- `self.geometry.geom_type.unique()` in `to_file`: the distinct shape-type
names of the geometry column, in order of first occurrence. -/
def GeoDataFrame.geomTypesUnique (self : GeoDataFrame) : Except Err (List String) := do
  let gvals ← match self.frame.getCol? self.geometry_column_name with
    | some v => pure v
    | none => throw (Err.keyError self.geometry_column_name)
  let names ← geomTypeNamesAux gvals
  pure names.dedup

/-- What `to_file` hands to `fiona.open` and then writes: the single detected
geometry category, the property schema, and one record per row.  Returning
`.ok` models reaching the `fiona.open` call; every `.error` is raised before
any file is opened. -/
structure FileOutput where
  geomType : String
  schemaProps : List (String × String)
  records : List Json
deriving Repr

/-- `GeoDataFrame.to_file`: build the property schema from the non-geometry
columns, detect the geometry category as the longest common SUFFIX of the
distinct shape-type names (the reversed `os.path.commonprefix` heuristic),
raise the mixed-geometry `ValueError` when that suffix is empty, and only then
open the file and write one feature per row. -/
def GeoDataFrame.to_file (self : GeoDataFrame) : Except Err FileOutput := do
  let geoName := self.geometry_column_name
  let properties := (self.frame.cols.filter (fun c => c.1 != geoName)).map
    (fun c => (c.1, convert_type (inferDtype c.2)))
  let geom_types ← self.geomTypesUnique
  let geom_type := strReverse (commonPrefixOf (geom_types.map strReverse))
  if geom_type = "" then
    throw (Err.valueError mixedMsg)
  else do
    let records ← fileFeaturesAux geoName self.frame.rows
    pure ⟨geom_type, properties, records⟩

/-! ## Supporting lemmas -/

lemma throw_def {α : Type} (e : Err) : (throw e : Except Err α) = .error e := rfl

lemma pure_def {α : Type} (a : α) : (pure a : Except Err α) = .ok a := rfl

lemma bind_def {α β : Type} (x : Except Err α) (f : α → Except Err β) :
    x >>= f = Except.bind x f := rfl

lemma exceptBind_ok {α β : Type} {x : Except Err α} {f : α → Except Err β} {b : β}
    (h : (x >>= f) = .ok b) : ∃ a, x = .ok a ∧ f a = .ok b := by
  cases x with
  | error e => simp [bind_def, Except.bind] at h
  | ok a => exact ⟨a, rfl, by simpa [bind_def, Except.bind] using h⟩

/-- `initNoGeometry` is `__init__` with `geometry=None`. -/
lemma initNoGeometry_eq_init (data : Frame) (crs : Option CRS) :
    initNoGeometry data crs = GeoDataFrame.init data crs none := by
  simp [initNoGeometry, GeoDataFrame.init, initCheck, bind_def, pure_def, Except.bind,
    throw_def]

lemma initCheck_ok {s g : GeoDataFrame} (h : initCheck s = .ok g) :
    g = s ∧ s.geometry_column_name ∈ s.frame.columnNames := by
  by_cases hm : s.geometry_column_name ∈ s.frame.columnNames
  · refine ⟨?_, hm⟩
    simpa [initCheck, hm, pure_def] using h.symm
  · simp [initCheck, hm, throw_def] at h

lemma Frame.getCol?_isSome_of_mem {f : Frame} {name : String}
    (h : name ∈ f.columnNames) : ∃ v, f.getCol? name = some v := by
  unfold Frame.columnNames at h
  rcases List.mem_map.mp h with ⟨c, hc, hname⟩
  have hfind : (f.cols.find? (fun c => c.1 == name)).isSome := by
    rw [List.find?_isSome]
    exact ⟨c, hc, by simp [hname]⟩
  rcases Option.isSome_iff_exists.mp hfind with ⟨c2, hc2⟩
  exact ⟨c2.2, by simp [Frame.getCol?, hc2]⟩

/-! ## C1: construction invariant -/

/-- C1: every successful construction of a `GeoDataFrame` leaves a column
whose name equals the configured geometry-column name among the columns; when
no geometry argument is passed and no column of the configured (default) name
exists, construction fails with the construction `ValueError`. -/
theorem construction_geometry_column_invariant :
    (∀ (data : Frame) (crs : Option CRS) (geometry : Option GeomInput) (g : GeoDataFrame),
        GeoDataFrame.init data crs geometry = .ok g →
        g.geometry_column_name ∈ g.frame.columnNames)
    ∧ (∀ (data : Frame) (crs : Option CRS),
        defaultGeoColName ∉ data.columnNames →
        GeoDataFrame.init data crs none =
          .error (.valueError (mustPassMsg defaultGeoColName))) := by
  constructor
  · intro data crs geometry g h
    unfold GeoDataFrame.init at h
    rcases exceptBind_ok h with ⟨s, _, hcheck⟩
    rcases initCheck_ok hcheck with ⟨rfl, hmem⟩
    exact hmem
  · intro data crs hmem
    simp [GeoDataFrame.init, initCheck, bind_def, pure_def, Except.bind, throw_def, hmem]

def ptCell (s : String) : Cell := Cell.geom ⟨"Point", s⟩

def frameC1 : Frame := ⟨[Label.nat 0], [("geometry", [ptCell "p"])]⟩

def gdfC1 : GeoDataFrame := ⟨frameC1, none, defaultGeoColName⟩

def frameC1bad : Frame := ⟨[Label.nat 0], [("value", [Cell.num 3])]⟩

theorem construction_geometry_column_invariant_witness :
    (GeoDataFrame.init frameC1 none none = .ok gdfC1 ∧
      gdfC1.geometry_column_name ∈ gdfC1.frame.columnNames)
    ∧ (defaultGeoColName ∉ frameC1bad.columnNames ∧
      GeoDataFrame.init frameC1bad none none =
        .error (.valueError (mustPassMsg defaultGeoColName))) :=
  ⟨⟨rfl, construction_geometry_column_invariant.1 frameC1 none none gdfC1 rfl⟩,
   ⟨by decide, construction_geometry_column_invariant.2 frameC1bad none (by decide)⟩⟩

/-! ## C2: `set_geometry(col, drop=True)` drops along the wrong axis -/

def dfDropBug : GeoDataFrame :=
  ⟨⟨[Label.nat 0], [("geom1", [ptCell "a"]), ("geometry", [ptCell "b"])]⟩,
   none, defaultGeoColName⟩

/-- C2 (code bug): on a table with columns `geom1` and `geometry` over the
default integer index, `set_geometry('geom1')` (default `drop=True`,
`inplace=False`) does not remove the column `geom1`: the source calls
`frame.drop(col, inplace=True)`, i.e. pandas' default axis-0 drop of the ROW
labelled `geom1`, which raises `ValueError` because no such row label exists
(the docstring "Delete column to be used as the new geometry" and the test
`test_set_geometry_col` expect the column to be deleted instead). -/
theorem set_geometry_drop_wrong_axis :
    dfDropBug.set_geometry (.ref "geom1") true false =
      .error (.valueError "labels [geom1] not contained in axis") := rfl

/-! ## C7: `copy` validates against the class-default geometry name -/

def dfLocCopy : GeoDataFrame :=
  ⟨⟨[Label.nat 0], [("A", [Cell.num 1]), ("location", [ptCell "p"])]⟩,
   some "epsg:4326", "location"⟩

def dfDefCopy : GeoDataFrame :=
  ⟨⟨[Label.nat 0], [("A", [Cell.num 1]), ("geometry", [ptCell "p"])]⟩,
   some "epsg:4326", defaultGeoColName⟩

/-- C7 (code bug): `copy()` of a geo-table whose geometry-column name is
`location` (and that therefore has no column literally named `geometry`)
raises the construction `ValueError` instead of returning a copy: the fresh
instance built by `GeoDataFrame(data)` is validated against the class-default
name before `__finalize__` propagates the custom name.  On a table whose
geometry column has the default name, `copy()` does return an identical
geo-table (same frame, CRS, and geometry-column name). -/
theorem copy_custom_geometry_name_raises :
    dfLocCopy.copy true = .error (.valueError (mustPassMsg defaultGeoColName))
    ∧ dfDefCopy.copy true = .ok dfDefCopy := ⟨rfl, rfl⟩

/-! ## C8: the property setter is bound under the wrong name -/

def dfSetterBug : GeoDataFrame :=
  ⟨⟨[Label.nat 0], [("geometry", [ptCell "g"]), ("simplified_geometry", [ptCell "s"])]⟩,
   none, defaultGeoColName⟩

/-- C8 (code bug): assigning an existing column name to the `geometry`
property never raises the guiding `ValueError`: the decorator
`@geometry.setter` is applied to a function named `geometry_setter`, so the
guarded setter is bound to the class attribute `geometry_setter` while the
attribute `geometry` keeps a setter-less property — every assignment
`self.geometry = col` raises `AttributeError` instead.  The guard body itself
(had it been reachable) does raise the directive `ValueError` on an existing
column name. -/
theorem geometry_property_assignment_unguarded :
    assignGeometryAttr dfSetterBug (.ref "simplified_geometry") =
      .error (.attributeError "cannot set attribute")
    ∧ dfSetterBug.geometry_setter (.ref "simplified_geometry") =
      .error (.valueError "Use set_geometry() to set an existing column as geometry")
    ∧ ∀ (self : GeoDataFrame) (col : GeomInput),
        assignGeometryAttr self col = .error (.attributeError "cannot set attribute") :=
  ⟨rfl, rfl, fun _ _ => rfl⟩

/-! ## C9: `set_geometry` with the current geometry-column name -/

def dfLocNine : GeoDataFrame :=
  ⟨⟨[Label.nat 0], [("location", [ptCell "p"])]⟩, none, "location"⟩

/-- C9 counterexample: on a geo-table whose geometry-column name is
`location`, the non-inplace `set_geometry('location', drop=True)` is NOT an
identity: the initial `self.copy()` raises the construction `ValueError`
(no column with the class-default name `geometry`). -/
theorem set_geometry_same_column_not_identity :
    dfLocNine.set_geometry (.ref "location") true false =
      .error (.valueError (mustPassMsg defaultGeoColName)) := rfl

/-- C9 (amended): `set_geometry` on the current geometry-column name with
`drop=True` is in place always the identity, and not in place it returns an
identical geo-table provided a column with the class-default name `geometry`
exists (otherwise the initial `self.copy()` raises the construction error). -/
theorem set_geometry_same_column_identity (df : GeoDataFrame)
    (hmem : df.geometry_column_name ∈ df.frame.columnNames) :
    df.set_geometry (.ref df.geometry_column_name) true true = .ok df
    ∧ (defaultGeoColName ∈ df.frame.columnNames →
        df.set_geometry (.ref df.geometry_column_name) true false = .ok df) := by
  obtain ⟨level, hlevel⟩ := Frame.getCol?_isSome_of_mem hmem
  constructor
  · simp [GeoDataFrame.set_geometry, bind_def, pure_def, Except.bind, hlevel]
  · intro hdef
    have hcopy : df.copy true = .ok df := by
      have : initNoGeometry df.frame none = .ok ⟨df.frame, none, defaultGeoColName⟩ := by
        simp [initNoGeometry, hdef]
      simp only [GeoDataFrame.copy, this, Except.map, GeoDataFrame.finalizeFrom]
    simp [GeoDataFrame.set_geometry, bind_def, pure_def, Except.bind, hcopy, hlevel]

def dfNineW : GeoDataFrame :=
  ⟨⟨[Label.nat 0], [("geometry", [ptCell "p"]), ("v", [Cell.num 2])]⟩,
   some "epsg:4326", defaultGeoColName⟩

theorem set_geometry_same_column_identity_witness :
    dfNineW.geometry_column_name ∈ dfNineW.frame.columnNames
    ∧ dfNineW.set_geometry (.ref dfNineW.geometry_column_name) true true = .ok dfNineW
    ∧ dfNineW.set_geometry (.ref dfNineW.geometry_column_name) true false = .ok dfNineW :=
  ⟨by decide,
   (set_geometry_same_column_identity dfNineW (by decide)).1,
   (set_geometry_same_column_identity dfNineW (by decide)).2 (by decide)⟩

/-! ## Lemmas about column selection and assignment -/

lemma find?_overwrite (n : String) (vs : List Cell) :
    ∀ (cols : List (String × List Cell)), n ∈ cols.map Prod.fst →
      (cols.map (fun c => if c.1 = n then (n, vs) else c)).find? (fun c => c.1 == n) =
        some (n, vs) := by
  intro cols
  induction cols with
  | nil => intro h; simp at h
  | cons c rest ih =>
    intro h
    by_cases hc : c.1 = n
    · simp [hc]
    · have h2 : n = c.1 ∨ n ∈ rest.map Prod.fst := by
        simpa only [List.map_cons, List.mem_cons] using h
      have hrest : n ∈ rest.map Prod.fst := by
        rcases h2 with h1 | h1
        · exact absurd h1.symm hc
        · exact h1
      simp [hc, ih hrest]

lemma find?_appended (n : String) (vs : List Cell) :
    ∀ (cols : List (String × List Cell)), n ∉ cols.map Prod.fst →
      (cols ++ [(n, vs)]).find? (fun c => c.1 == n) = some (n, vs) := by
  intro cols
  induction cols with
  | nil => intro _; simp
  | cons c rest ih =>
    intro h
    have hc : ¬ c.1 = n := fun hh => h (by simp [hh])
    have hrest : n ∉ rest.map Prod.fst := fun hm => h (by simp [hm])
    simp [hc, ih hrest]

/-- `frame[name] = values` makes `frame[name]` return `values`. -/
lemma Frame.getCol?_setCol_self (f : Frame) (n : String) (vs : List Cell) :
    (f.setCol n vs).getCol? n = some vs := by
  by_cases hmem : n ∈ f.columnNames
  · have := find?_overwrite n vs f.cols hmem
    simp [Frame.setCol, Frame.getCol?, hmem, this]
  · have := find?_appended n vs f.cols hmem
    simp [Frame.setCol, Frame.getCol?, hmem, this]

lemma Frame.columnNames_setCol (f : Frame) (n : String) (vs : List Cell) :
    (f.setCol n vs).columnNames =
      if n ∈ f.columnNames then f.columnNames else f.columnNames ++ [n] := by
  unfold Frame.setCol
  by_cases hmem : n ∈ f.columnNames
  · rw [if_pos hmem, if_pos hmem]
    simp only [Frame.columnNames, List.map_map]
    apply List.map_congr_left
    intro c _
    by_cases hcn : c.1 = n
    · simp [hcn, Function.comp]
    · simp [hcn, Function.comp]
  · rw [if_neg hmem, if_neg hmem]
    simp [Frame.columnNames]

lemma Frame.index_setCol (f : Frame) (n : String) (vs : List Cell) :
    (f.setCol n vs).index = f.index := by
  unfold Frame.setCol
  split <;> rfl

lemma Frame.nrows_setCol (f : Frame) (n : String) (vs : List Cell) :
    (f.setCol n vs).nrows = f.nrows := by
  simp [Frame.nrows, Frame.index_setCol]

/-- Selecting a list of present column names succeeds and yields exactly those
columns in order. -/
lemma selectColsAux_ok (f : Frame) :
    ∀ (ks : List String), (∀ k ∈ ks, k ∈ f.columnNames) →
      ∃ cs, selectColsAux f ks = .ok cs ∧ cs.map Prod.fst = ks := by
  intro ks
  induction ks with
  | nil => intro _; exact ⟨[], rfl, rfl⟩
  | cons k rest ih =>
    intro h
    obtain ⟨v, hv⟩ := Frame.getCol?_isSome_of_mem (h k (by simp))
    obtain ⟨cs, hcs, hnames⟩ := ih (fun k2 hk2 => h k2 (by simp [hk2]))
    exact ⟨(k, v) :: cs, by simp [selectColsAux, hv, hcs, Except.map], by simp [hnames]⟩

lemma superGetitemCols_ok (f : Frame) (ks : List String)
    (h : ∀ k ∈ ks, k ∈ f.columnNames) :
    ∃ g : Frame, superGetitemCols f ks = .ok g ∧ g.index = f.index ∧
      g.columnNames = ks := by
  obtain ⟨cs, hcs, hnames⟩ := selectColsAux_ok f ks h
  exact ⟨⟨f.index, cs⟩, by simp [superGetitemCols, hcs, Except.map], rfl, hnames⟩

/-! ## C6: the three-way column-selection contract -/

/-- C6: column selection obeys the three-way contract of `__getitem__`:
the single geometry-column name yields a `GeoSeries` with the table's CRS and
the geometry column's values; a column list still containing the geometry
column yields a `GeoDataFrame` carrying the same CRS; a column list without
the geometry column yields a plain `DataFrame` with the CRS broadcast into an
ordinary column named "crs". -/
theorem getitem_three_way_contract (df : GeoDataFrame) :
    (∀ gvals, df.frame.getCol? df.geometry_column_name = some gvals →
      df.getitem (.str df.geometry_column_name) =
        .ok (.geoseries ⟨⟨df.geometry_column_name, df.frame.index, gvals⟩, df.crs⟩))
    ∧ (∀ ks : List String, (∀ k ∈ ks, k ∈ df.frame.columnNames) →
        df.geometry_column_name ∈ ks →
        ∃ g : GeoDataFrame, df.getitem (.cols ks) = .ok (.geoframe g) ∧ g.crs = df.crs)
    ∧ (∀ ks : List String, (∀ k ∈ ks, k ∈ df.frame.columnNames) →
        df.geometry_column_name ∉ ks →
        ∃ f : Frame, df.getitem (.cols ks) = .ok (.frame f) ∧
          f.getCol? "crs" = some (List.replicate f.nrows (Cell.ofCrs df.crs))) := by
  refine ⟨?_, ?_, ?_⟩
  · intro gvals hg
    simp [GeoDataFrame.getitem, hg, bind_def, pure_def, Except.bind]
  · intro ks hks hgeo
    obtain ⟨g, hg, _, hnames⟩ := superGetitemCols_ok df.frame ks hks
    refine ⟨⟨g, df.crs, defaultGeoColName⟩, ?_, rfl⟩
    have hmem : df.geometry_column_name ∈ g.columnNames := by rw [hnames]; exact hgeo
    simp [GeoDataFrame.getitem, hg, bind_def, pure_def, Except.bind, hmem]
  · intro ks hks hgeo
    obtain ⟨g, hg, _, hnames⟩ := superGetitemCols_ok df.frame ks hks
    have hmem : df.geometry_column_name ∉ g.columnNames := by rw [hnames]; exact hgeo
    refine ⟨g.setCol "crs" (List.replicate g.nrows (Cell.ofCrs df.crs)), ?_, ?_⟩
    · simp [GeoDataFrame.getitem, hg, bind_def, pure_def, Except.bind, hmem]
    · rw [Frame.getCol?_setCol_self, Frame.nrows_setCol]

def dfSixW : GeoDataFrame :=
  ⟨⟨[Label.nat 0], [("geometry", [ptCell "p"]), ("v", [Cell.num 2])]⟩,
   some "epsg:4326", defaultGeoColName⟩

theorem getitem_three_way_contract_witness :
    (dfSixW.frame.getCol? dfSixW.geometry_column_name = some [ptCell "p"] ∧
      dfSixW.getitem (.str dfSixW.geometry_column_name) =
        .ok (.geoseries ⟨⟨dfSixW.geometry_column_name, dfSixW.frame.index, [ptCell "p"]⟩,
          dfSixW.crs⟩))
    ∧ (∃ g : GeoDataFrame,
        dfSixW.getitem (.cols ["v", "geometry"]) = .ok (.geoframe g) ∧ g.crs = dfSixW.crs)
    ∧ (∃ f : Frame, dfSixW.getitem (.cols ["v"]) = .ok (.frame f) ∧
        f.getCol? "crs" = some (List.replicate f.nrows (Cell.ofCrs dfSixW.crs))) :=
  ⟨⟨rfl, (getitem_three_way_contract dfSixW).1 [ptCell "p"] rfl⟩,
   (getitem_three_way_contract dfSixW).2.1 ["v", "geometry"] (by decide) (by decide),
   (getitem_three_way_contract dfSixW).2.2 ["v"] (by decide) (by decide)⟩

/-! ## C10: the broadcast "crs" column overwrites a selected column -/

/-- C10: selecting columns that exclude the geometry column yields a plain
frame in which the column literally named "crs" holds the broadcast CRS value
of the table, and no second "crs" column is appended when one was selected:
a pre-existing selected column of that name is overwritten. -/
theorem getitem_crs_column_overwrites (df : GeoDataFrame) (ks : List String)
    (hks : ∀ k ∈ ks, k ∈ df.frame.columnNames)
    (hgeo : df.geometry_column_name ∉ ks) :
    ∃ f : Frame, df.getitem (.cols ks) = .ok (.frame f) ∧
      f.getCol? "crs" = some (List.replicate df.frame.nrows (Cell.ofCrs df.crs)) ∧
      f.columnNames = (if "crs" ∈ ks then ks else ks ++ ["crs"]) := by
  obtain ⟨g, hg, hidx, hnames⟩ := superGetitemCols_ok df.frame ks hks
  have hmem : df.geometry_column_name ∉ g.columnNames := by rw [hnames]; exact hgeo
  have hn : g.nrows = df.frame.nrows := by simp [Frame.nrows, hidx]
  refine ⟨g.setCol "crs" (List.replicate g.nrows (Cell.ofCrs df.crs)), ?_, ?_, ?_⟩
  · simp [GeoDataFrame.getitem, hg, bind_def, pure_def, Except.bind, hmem]
  · rw [Frame.getCol?_setCol_self, hn]
  · rw [Frame.columnNames_setCol, hnames]

def dfTenW : GeoDataFrame :=
  ⟨⟨[Label.nat 0], [("geometry", [ptCell "p"]), ("crs", [Cell.str "stale"]),
    ("v", [Cell.num 2])]⟩, some "epsg:26918", defaultGeoColName⟩

theorem getitem_crs_column_overwrites_witness :
    (∀ k ∈ ["crs", "v"], k ∈ dfTenW.frame.columnNames)
    ∧ dfTenW.geometry_column_name ∉ ["crs", "v"]
    ∧ (∃ f : Frame, dfTenW.getitem (.cols ["crs", "v"]) = .ok (.frame f) ∧
        f.getCol? "crs" = some (List.replicate dfTenW.frame.nrows (Cell.ofCrs dfTenW.crs)) ∧
        f.columnNames = (if "crs" ∈ ["crs", "v"] then ["crs", "v"] else ["crs", "v"] ++ ["crs"])) :=
  ⟨by decide, by decide, getitem_crs_column_overwrites dfTenW ["crs", "v"] (by decide) (by decide)⟩

/-! ## Lemmas about `os.path.commonprefix` -/

/-- `p` is a prefix of `l` (stated via `take`). -/
def IsCP (p l : List Char) : Prop := l.take p.length = p

lemma IsCP_of_nil {p : List Char} (h : IsCP p []) : p = [] := by
  simpa [IsCP] using h.symm

lemma lcp2_cp_left : ∀ a b : List Char, IsCP (lcp2 a b) a := by
  intro a
  induction a with
  | nil => intro b; cases b <;> simp [lcp2, IsCP]
  | cons x xs ih =>
    intro b
    cases b with
    | nil => simp [lcp2, IsCP]
    | cons y ys =>
      by_cases hxy : x = y
      · subst hxy
        have hx : List.take (lcp2 xs ys).length xs = lcp2 xs ys := ih ys
        show IsCP (if x = x then x :: lcp2 xs ys else []) (x :: xs)
        rw [if_pos rfl]
        show List.take (x :: lcp2 xs ys).length (x :: xs) = x :: lcp2 xs ys
        rw [List.length_cons, List.take_succ_cons, hx]
      · simp [lcp2, hxy, IsCP]

lemma lcp2_cp_right : ∀ a b : List Char, IsCP (lcp2 a b) b := by
  intro a
  induction a with
  | nil => intro b; cases b <;> simp [lcp2, IsCP]
  | cons x xs ih =>
    intro b
    cases b with
    | nil => simp [lcp2, IsCP]
    | cons y ys =>
      by_cases hxy : x = y
      · subst hxy
        have hx : List.take (lcp2 xs ys).length ys = lcp2 xs ys := ih ys
        show IsCP (if x = x then x :: lcp2 xs ys else []) (x :: ys)
        rw [if_pos rfl]
        show List.take (x :: lcp2 xs ys).length (x :: ys) = x :: lcp2 xs ys
        rw [List.length_cons, List.take_succ_cons, hx]
      · simp [lcp2, hxy, IsCP]

lemma IsCP_trans {p q l : List Char} (hp : IsCP p q) (hq : IsCP q l) : IsCP p l := by
  have hlen : p.length ≤ q.length := by
    have := congrArg List.length hp
    simp only [List.length_take] at this
    omega
  unfold IsCP at *
  calc l.take p.length = (l.take q.length).take p.length := by
        rw [List.take_take, min_eq_left hlen]
    _ = q.take p.length := by rw [hq]
    _ = p := hp

lemma cp_lcp2 : ∀ (p a b : List Char), IsCP p a → IsCP p b → IsCP p (lcp2 a b) := by
  intro p
  induction p with
  | nil => intro a b _ _; simp [IsCP]
  | cons x xs ih =>
    intro a b ha hb
    cases a with
    | nil => simp [IsCP] at ha
    | cons a0 as =>
      cases b with
      | nil => simp [IsCP] at hb
      | cons b0 bs =>
        simp only [IsCP, List.length_cons, List.take_succ_cons, List.cons.injEq] at ha hb
        obtain ⟨ha1, ha2⟩ := ha
        obtain ⟨hb1, hb2⟩ := hb
        rw [ha1, hb1]
        have h2 : List.take xs.length (lcp2 as bs) = xs := ih as bs ha2 hb2
        show IsCP (x :: xs) (if x = x then x :: lcp2 as bs else [])
        rw [if_pos rfl]
        show List.take (x :: xs).length (x :: lcp2 as bs) = x :: xs
        rw [List.length_cons, List.take_succ_cons, h2]

lemma foldl_lcp2_cp : ∀ (rest : List (List Char)) (s : List Char),
    IsCP (List.foldl lcp2 s rest) s ∧
      ∀ x ∈ rest, IsCP (List.foldl lcp2 s rest) x := by
  intro rest
  induction rest with
  | nil => intro s; exact ⟨by simp [IsCP], by simp⟩
  | cons b rs ih =>
    intro s
    obtain ⟨h1, h2⟩ := ih (lcp2 s b)
    refine ⟨IsCP_trans h1 (lcp2_cp_left s b), ?_⟩
    intro x hx
    rcases List.mem_cons.mp hx with rfl | hx2
    · exact IsCP_trans h1 (lcp2_cp_right s x)
    · exact h2 x hx2

lemma lcpMany_eq_nil (l : List (List Char)) (a b : List Char)
    (ha : a ∈ l) (hb : b ∈ l) (hab : lcp2 a b = []) : lcpMany l = [] := by
  cases l with
  | nil => simp at ha
  | cons s rest =>
    have hcp := foldl_lcp2_cp rest s
    have hcpa : IsCP (lcpMany (s :: rest)) a := by
      rcases List.mem_cons.mp ha with rfl | ha2
      · exact hcp.1
      · exact hcp.2 a ha2
    have hcpb : IsCP (lcpMany (s :: rest)) b := by
      rcases List.mem_cons.mp hb with rfl | hb2
      · exact hcp.1
      · exact hcp.2 b hb2
    have := cp_lcp2 _ a b hcpa hcpb
    rw [hab] at this
    exact IsCP_of_nil this

/-! ## C3: the mixed-geometry check of `to_file` -/

def dfPointMulti : GeoDataFrame :=
  ⟨⟨[Label.nat 0, Label.nat 1],
    [("geometry", [Cell.geom ⟨"Point", "c0"⟩, Cell.geom ⟨"MultiPoint", "c1"⟩])]⟩,
   none, defaultGeoColName⟩

def isOkE {α : Type} : Except Err α → Bool
  | .ok _ => true
  | .error _ => false

/-- C3 counterexample: a geo-table whose geometry values span TWO distinct
shape categories, `Point` and `MultiPoint`, is NOT rejected by `to_file`: the
reversed-`commonprefix` heuristic finds the shared suffix "Point" and the
export proceeds to open the file.  The claim ("for every geo-table whose
geometry values include at least two distinct shape categories, to_file raises
the mixed-geometry ValueError") is therefore false as stated. -/
theorem to_file_two_categories_accepted :
    dfPointMulti.frame.getCol? defaultGeoColName =
      some [Cell.geom ⟨"Point", "c0"⟩, Cell.geom ⟨"MultiPoint", "c1"⟩]
    ∧ ("Point" : String) ≠ "MultiPoint"
    ∧ isOkE dfPointMulti.to_file = true := ⟨rfl, by decide, rfl⟩

/-- C3 (amended): `to_file` raises the mixed-geometry `ValueError` — before
any file is opened, since the check precedes the `fiona.open` call — whenever
the observed shape-type names include two whose names share no common suffix
(for example `Point` and `Polygon`); categories whose names share a nonempty
suffix (such as `Point` and `MultiPoint`) are not rejected. -/
theorem to_file_mixed_no_common_suffix (df : GeoDataFrame) (ts : List String)
    (a b : String) (hts : df.geomTypesUnique = .ok ts) (ha : a ∈ ts) (hb : b ∈ ts)
    (hab : lcp2 (strReverse a).toList (strReverse b).toList = []) :
    df.to_file = .error (.valueError mixedMsg) := by
  have hmain : lcpMany (List.map (String.toList ∘ strReverse) ts) = [] := by
    refine lcpMany_eq_nil _ (strReverse a).toList (strReverse b).toList ?_ ?_ hab
    · exact List.mem_map.mpr ⟨a, ha, rfl⟩
    · exact List.mem_map.mpr ⟨b, hb, rfl⟩
  have hempty : strReverse (commonPrefixOf (ts.map strReverse)) = "" := by
    unfold commonPrefixOf
    rw [List.map_map, hmain]
    rfl
  simp [GeoDataFrame.to_file, bind_def, Except.bind, hts, hempty, throw_def]

def dfPointPolygon : GeoDataFrame :=
  ⟨⟨[Label.nat 0, Label.nat 1],
    [("geometry", [Cell.geom ⟨"Point", "c0"⟩, Cell.geom ⟨"Polygon", "c1"⟩])]⟩,
   none, defaultGeoColName⟩

theorem to_file_mixed_no_common_suffix_witness :
    dfPointPolygon.geomTypesUnique = .ok ["Point", "Polygon"]
    ∧ ("Point" : String) ∈ ["Point", "Polygon"]
    ∧ ("Polygon" : String) ∈ ["Point", "Polygon"]
    ∧ lcp2 (strReverse "Point").toList (strReverse "Polygon").toList = []
    ∧ dfPointPolygon.to_file = .error (.valueError mixedMsg) :=
  ⟨rfl, by decide, by decide, rfl,
   to_file_mixed_no_common_suffix dfPointPolygon ["Point", "Polygon"] "Point" "Polygon"
     rfl (by decide) (by decide) rfl⟩

/-! ## Lemmas about `to_json` -/

lemma applyNa_null (row : List (String × Cell)) :
    applyNa "null" row = row.map (fun p => if p.2.isna then (p.1, Cell.pynone) else p) := rfl

lemma applyNa_drop (row : List (String × Cell)) :
    applyNa "drop" row = row.filter (fun p => !p.2.isna) := rfl

lemma applyNa_keep (row : List (String × Cell)) : applyNa "keep" row = row := rfl

lemma Frame.rows_length (f : Frame) : f.rows.length = f.nrows := by
  simp [Frame.rows]

lemma Frame.rows_getD (f : Frame) (i : Nat) (hi : i < f.nrows) :
    f.rows.getD i (Label.nat 0, []) = (f.index.getD i (Label.nat 0), f.rowAt i) := by
  have hlen : i < ((List.range f.nrows).map
      (fun i => (f.index.getD i (Label.nat 0), f.rowAt i))).length := by
    simp [hi]
  unfold Frame.rows
  rw [List.getD_eq_getElem _ _ hlen]
  simp

lemma Frame.rowAt_keys (f : Frame) (i : Nat) :
    (f.rowAt i).map Prod.fst = f.columnNames := by
  simp [Frame.rowAt, Frame.columnNames]

lemma featuresAux_ok (geoName na : String) :
    ∀ (rows : List (Label × List (String × Cell))) (feats : List Json),
      featuresAux geoName na rows = .ok feats →
      feats.length = rows.length ∧
      ∀ i, i < rows.length →
        jsonFeature geoName na (rows.getD i (Label.nat 0, [])).1
          (rows.getD i (Label.nat 0, [])).2 = .ok (feats.getD i .null) := by
  intro rows
  induction rows with
  | nil =>
    intro feats h
    have : feats = [] := by simpa [featuresAux, pure_def] using h.symm
    subst this
    exact ⟨rfl, fun i hi => absurd hi (by simp)⟩
  | cons r rs ih =>
    intro feats h
    unfold featuresAux at h
    rcases exceptBind_ok h with ⟨f, hf, h2⟩
    rcases exceptBind_ok h2 with ⟨fs, hfs, h3⟩
    have : feats = f :: fs := by simpa [pure_def] using h3.symm
    subst this
    obtain ⟨hlen, hidx⟩ := ih fs hfs
    refine ⟨by simp [hlen], ?_⟩
    intro i hi
    cases i with
    | zero => simpa using hf
    | succ j => simpa using hidx j (by simpa using hi)

lemma to_json_ok (df : GeoDataFrame) (na : String) (doc : Json)
    (h : df.to_json na = .ok doc) :
    ∃ feats, featuresAux df.geometry_column_name na df.frame.rows = .ok feats ∧
      doc = .obj [("type", .str "FeatureCollection"), ("features", .arr feats)] := by
  unfold GeoDataFrame.to_json at h
  by_cases hna : validNa na = true
  · rw [if_pos hna] at h
    cases hfa : featuresAux df.geometry_column_name na df.frame.rows with
    | ok feats =>
      rw [hfa] at h
      exact ⟨feats, rfl, by injection h with h2; exact h2.symm⟩
    | error e => rw [hfa] at h; cases h
  · rw [if_neg hna] at h; cases h

lemma jsonFeature_ok {geoName na : String} {lab : Label}
    {row : List (String × Cell)} {fj : Json}
    (h : jsonFeature geoName na lab row = .ok fj) :
    ∃ props geomJson,
      propsAux ((applyNa na row).filter (fun p => p.1 != geoName)) = .ok props ∧
      (match (applyNa na row).lookup geoName with
        | some c => mappingCell c
        | none => Except.error (Err.keyError geoName)) = .ok geomJson ∧
      fj = .obj [("id", .str lab.render), ("type", .str "Feature"),
                 ("properties", .obj props), ("geometry", geomJson)] := by
  unfold jsonFeature at h
  rcases exceptBind_ok h with ⟨props, hp, h2⟩
  rcases exceptBind_ok h2 with ⟨gj, hg, h3⟩
  exact ⟨props, gj, hp, hg, by simpa [pure_def] using h3.symm⟩

lemma propsAux_ok :
    ∀ (l : List (String × Cell)) (ps : List (String × Json)), propsAux l = .ok ps →
      ps.map Prod.fst = l.map Prod.fst ∧
      (∀ k c, l.lookup k = some c →
        ∃ j, scalarToJson c = .ok j ∧ ps.lookup k = some j) ∧
      (∀ k, l.lookup k = none → ps.lookup k = none) := by
  intro l
  induction l with
  | nil =>
    intro ps h
    have : ps = [] := by simpa [propsAux, pure_def] using h.symm
    subst this
    exact ⟨rfl, by simp, by simp⟩
  | cons p rest ih =>
    intro ps h
    unfold propsAux at h
    rcases exceptBind_ok h with ⟨j, hj, h2⟩
    rcases exceptBind_ok h2 with ⟨rest2, hrest, h3⟩
    have : ps = (p.1, j) :: rest2 := by simpa [pure_def] using h3.symm
    subst this
    obtain ⟨hnames, hsome, hnone⟩ := ih rest2 hrest
    refine ⟨by simp [hnames], ?_, ?_⟩
    · intro k c hk
      by_cases hpk : (k == p.1) = true
      · have hc : some p.2 = some c := by
          simpa only [List.lookup, hpk] using hk
        obtain rfl : p.2 = c := Option.some.inj hc
        exact ⟨j, hj, by simp [List.lookup, hpk]⟩
      · have hpk2 : (k == p.1) = false := by simpa using hpk
        have hk2 : List.lookup k rest = some c := by
          simpa only [List.lookup, hpk2] using hk
        obtain ⟨j2, hj2, hps⟩ := hsome k c hk2
        refine ⟨j2, hj2, ?_⟩
        simp only [List.lookup, hpk2]
        exact hps
    · intro k hk
      by_cases hpk : (k == p.1) = true
      · have hc : some p.2 = none := by
          simpa only [List.lookup, hpk] using hk
        exact Option.noConfusion hc
      · have hpk2 : (k == p.1) = false := by simpa using hpk
        have hk2 : List.lookup k rest = none := by
          simpa only [List.lookup, hpk2] using hk
        simp only [List.lookup, hpk2]
        exact hnone k hk2

lemma lookup_eq_none_of_not_mem_keys {β : Type} (l : List (String × β)) (k : String)
    (h : k ∉ l.map Prod.fst) : l.lookup k = none := by
  induction l with
  | nil => rfl
  | cons p rest ih =>
    have hne : k ≠ p.1 := fun hk => h (by simp [hk])
    have hpk : (k == p.1) = false := by simp [hne]
    simp only [List.lookup, hpk]
    exact ih (fun hm => h (by simp [hm]))

lemma map_fst_filter_key {β : Type} (row : List (String × β)) (g : String) :
    (row.filter (fun p => p.1 != g)).map Prod.fst =
      (row.map Prod.fst).filter (fun n => n != g) := by
  induction row with
  | nil => rfl
  | cons p rest ih =>
    by_cases hp : (p.1 != g) = true
    · simp [List.filter_cons, hp, ih]
    · simp only [Bool.not_eq_true] at hp
      simp [List.filter_cons, hp, ih]

lemma map_fst_applyNa_null_filter (row : List (String × Cell)) (g : String) :
    ((applyNa "null" row).filter (fun p => p.1 != g)).map Prod.fst =
      (row.filter (fun p => p.1 != g)).map Prod.fst := by
  rw [applyNa_null]
  induction row with
  | nil => rfl
  | cons p rest ih =>
    by_cases hna : p.2.isna = true
    · by_cases hpg : (p.1 != g) = true
      · simp [List.filter_cons, hna, hpg, ih]
      · simp only [Bool.not_eq_true] at hpg
        simp [List.filter_cons, hna, hpg, ih]
    · simp only [Bool.not_eq_true] at hna
      by_cases hpg : (p.1 != g) = true
      · simp [List.filter_cons, hna, hpg, ih]
      · simp only [Bool.not_eq_true] at hpg
        simp [List.filter_cons, hna, hpg, ih]

lemma lookup_filter_key_ne {β : Type} (l : List (String × β)) (g k : String)
    (hkg : k ≠ g) : (l.filter (fun p => p.1 != g)).lookup k = l.lookup k := by
  induction l with
  | nil => rfl
  | cons p rest ih =>
    by_cases hpg : (p.1 != g) = true
    · by_cases hpk : (k == p.1) = true
      · simp [List.filter_cons, hpg, List.lookup, hpk]
      · have hpk2 : (k == p.1) = false := by simpa using hpk
        simp only [List.filter_cons, hpg, if_true, List.lookup, hpk2]
        exact ih
    · have hp : p.1 = g := by simpa using hpg
      have hpk2 : (k == p.1) = false := by simp [hp, hkg]
      simp only [List.filter_cons, hpg, if_false, List.lookup, hpk2]
      exact ih

lemma lookup_applyNa_null (row : List (String × Cell)) (k : String) :
    (applyNa "null" row).lookup k =
      (row.lookup k).map (fun c => if c.isna then Cell.pynone else c) := by
  rw [applyNa_null]
  induction row with
  | nil => rfl
  | cons p rest ih =>
    have hmap : List.map (fun p => if p.2.isna then (p.1, Cell.pynone) else p) (p :: rest) =
        (if p.2.isna then (p.1, Cell.pynone) else p) ::
          List.map (fun p => if p.2.isna then (p.1, Cell.pynone) else p) rest := rfl
    rw [hmap]
    by_cases hna : p.2.isna = true
    · rw [if_pos hna]
      by_cases hpk : (k == p.1) = true
      · simp [List.lookup, hpk, hna]
      · have hpk2 : (k == p.1) = false := by simpa using hpk
        simp [List.lookup, hpk2, ih]
    · rw [if_neg hna]
      by_cases hpk : (k == p.1) = true
      · simp only [Bool.not_eq_true] at hna
        simp [List.lookup, hpk, hna]
      · have hpk2 : (k == p.1) = false := by simpa using hpk
        simp [List.lookup, hpk2, ih]

lemma lookup_geom_of_applyNa_null {row : List (String × Cell)} {g : String} {ge : Geom}
    (h : (applyNa "null" row).lookup g = some (Cell.geom ge)) :
    row.lookup g = some (Cell.geom ge) := by
  rw [lookup_applyNa_null] at h
  cases hrow : row.lookup g with
  | none => rw [hrow] at h; cases h
  | some c =>
    rw [hrow] at h
    have h2 : (if c.isna then Cell.pynone else c) = Cell.geom ge := by
      simpa using h
    by_cases hna : c.isna = true
    · rw [if_pos hna] at h2
      exact Cell.noConfusion h2
    · rw [if_neg hna] at h2
      exact congrArg some h2

lemma lookup_filter_isna_of_nan {row : List (String × Cell)} {k : String}
    (hnd : (row.map Prod.fst).Nodup) (h : row.lookup k = some Cell.nan) :
    (row.filter (fun p => !p.2.isna)).lookup k = none := by
  induction row with
  | nil => cases h
  | cons p rest ih =>
    rw [List.map_cons] at hnd
    obtain ⟨hp, hndrest⟩ := List.nodup_cons.mp hnd
    by_cases hpk : (k == p.1) = true
    · have hp2 : p.2 = Cell.nan :=
        Option.some.inj (by simpa only [List.lookup, hpk] using h)
      have hkeq : k = p.1 := by simpa using hpk
      have hknotin : k ∉ rest.map Prod.fst := by rw [hkeq]; exact hp
      have hsub : (rest.filter (fun p => !p.2.isna)).map Prod.fst ⊆ rest.map Prod.fst :=
        List.map_subset _ (List.filter_sublist _).subset
      have hnone : (rest.filter (fun p => !p.2.isna)).lookup k = none :=
        lookup_eq_none_of_not_mem_keys _ _ (fun hm => hknotin (hsub hm))
      have hq : (!p.2.isna) = false := by simp [hp2, Cell.isna]
      rw [List.filter_cons, hq]
      simpa using hnone
    · have hpk2 : (k == p.1) = false := by simpa using hpk
      have h2 : rest.lookup k = some Cell.nan := by
        simpa only [List.lookup, hpk2] using h
      have hrec := ih hndrest h2
      by_cases hq : (!p.2.isna) = true
      · rw [List.filter_cons, if_pos hq]
        simp only [List.lookup, hpk2]
        exact hrec
      · have hq2 : (!p.2.isna) = false := by simpa using hq
        rw [List.filter_cons, hq2]
        simpa using hrec

lemma lookup_filter_isna_of_some {row : List (String × Cell)} {k : String} {c : Cell}
    (h : row.lookup k = some c) (hc : c.isna = false) :
    (row.filter (fun p => !p.2.isna)).lookup k = some c := by
  induction row with
  | nil => cases h
  | cons p rest ih =>
    by_cases hpk : (k == p.1) = true
    · have hp2 : p.2 = c := Option.some.inj (by simpa only [List.lookup, hpk] using h)
      have hq : (!p.2.isna) = true := by simp [hp2, hc]
      rw [List.filter_cons, if_pos hq]
      simp [List.lookup, hpk, hp2]
    · have hpk2 : (k == p.1) = false := by simpa using hpk
      have h2 : rest.lookup k = some c := by simpa only [List.lookup, hpk2] using h
      have hrec := ih h2
      by_cases hq : (!p.2.isna) = true
      · rw [List.filter_cons, if_pos hq]
        simp only [List.lookup, hpk2]
        exact hrec
      · have hq2 : (!p.2.isna) = false := by simpa using hq
        rw [List.filter_cons, hq2]
        simpa using hrec

lemma docFeatures_mk (feats : List Json) :
    docFeatures (.obj [("type", .str "FeatureCollection"),
      ("features", .arr feats)]) = feats := rfl

lemma featProps_mk (s : String) (props : List (String × Json)) (gj : Json) :
    featProps (.obj [("id", .str s), ("type", .str "Feature"),
      ("properties", .obj props), ("geometry", gj)]) = props := rfl

/-! ## C5: GeoJSON document structure -/

def dfLabelA : GeoDataFrame :=
  ⟨⟨[Label.str "a"], [("geometry", [ptCell "p"])]⟩, none, defaultGeoColName⟩

/-- C5 counterexample: the feature identifier is the row's INDEX LABEL rendered
as a string, not the row's position: on a one-row table whose index label is
the string "a", `to_json` emits `id = "a"` where the claim requires the
position string "0". -/
theorem to_json_id_is_label_not_position :
    dfLabelA.to_json "null" = .ok (.obj
      [("type", .str "FeatureCollection"),
       ("features", .arr [.obj
         [("id", .str "a"), ("type", .str "Feature"),
          ("properties", .obj []),
          ("geometry", .obj [("type", .str "Point"), ("coordinates", .str "p")])]])])
    ∧ ("a" : String) ≠ "0" := ⟨rfl, by decide⟩

/-- C5 (amended): a successful `to_json` produces a document of top-level type
`FeatureCollection` with exactly one feature per row; each feature carries an
`id` equal to the row's index label rendered as a string (which coincides with
the position only for the default integer range index), a properties map whose
keys are the non-geometry column names, and a geometry equal to the
geometry-library mapping of the row's geometry cell. -/
theorem to_json_feature_collection_structure (df : GeoDataFrame) (doc : Json)
    (h : df.to_json "null" = .ok doc) :
    ∃ feats : List Json,
      doc = .obj [("type", .str "FeatureCollection"), ("features", .arr feats)] ∧
      feats.length = df.frame.nrows ∧
      ∀ i, i < df.frame.nrows →
        ∃ (props : List (String × Json)) (g : Geom),
          feats.getD i .null = .obj
            [("id", .str ((df.frame.index.getD i (Label.nat 0)).render)),
             ("type", .str "Feature"),
             ("properties", .obj props), ("geometry", mappingJson g)] ∧
          props.map Prod.fst =
            df.frame.columnNames.filter (fun n => n != df.geometry_column_name) ∧
          (df.frame.rowAt i).lookup df.geometry_column_name = some (Cell.geom g) := by
  obtain ⟨feats, hfa, hdoc⟩ := to_json_ok df "null" doc h
  obtain ⟨hlen, hidx⟩ := featuresAux_ok _ _ _ _ hfa
  refine ⟨feats, hdoc, by rw [hlen, Frame.rows_length], ?_⟩
  intro i hi
  have hi2 : i < df.frame.rows.length := by rw [Frame.rows_length]; exact hi
  have hfeat := hidx i hi2
  rw [Frame.rows_getD df.frame i hi] at hfeat
  obtain ⟨props, gj, hprops, hgeom, hfj⟩ := jsonFeature_ok hfeat
  cases hlook : (applyNa "null" (df.frame.rowAt i)).lookup df.geometry_column_name with
  | none => rw [hlook] at hgeom; cases hgeom
  | some c =>
    rw [hlook] at hgeom
    cases c with
    | geom ge =>
      have hgj : gj = mappingJson ge := by
        have h3 : (Except.ok (mappingJson ge) : Except Err Json) = .ok gj := hgeom
        exact (Except.ok.inj h3).symm
      refine ⟨props, ge, ?_, ?_, ?_⟩
      · rw [hgj] at hfj
        exact hfj
      · have hkeys := (propsAux_ok _ _ hprops).1
        rw [hkeys, map_fst_applyNa_null_filter, map_fst_filter_key, Frame.rowAt_keys]
      · exact lookup_geom_of_applyNa_null hlook
    | str s => simp [mappingCell] at hgeom
    | num n => simp [mappingCell] at hgeom
    | nan => simp [mappingCell] at hgeom
    | pynone => simp [mappingCell] at hgeom

def dfFiveW : GeoDataFrame :=
  ⟨⟨[Label.nat 0], [("geometry", [ptCell "p"]), ("v", [Cell.num 7])]⟩,
   none, defaultGeoColName⟩

def docFiveW : Json :=
  .obj [("type", .str "FeatureCollection"),
        ("features", .arr [.obj
          [("id", .str "0"), ("type", .str "Feature"),
           ("properties", .obj [("v", .num 7)]),
           ("geometry", .obj [("type", .str "Point"), ("coordinates", .str "p")])]])]

theorem to_json_feature_collection_structure_witness :
    dfFiveW.to_json "null" = .ok docFiveW ∧
    (∃ feats : List Json,
      docFiveW = .obj [("type", .str "FeatureCollection"), ("features", .arr feats)] ∧
      feats.length = dfFiveW.frame.nrows ∧
      ∀ i, i < dfFiveW.frame.nrows →
        ∃ (props : List (String × Json)) (g : Geom),
          feats.getD i .null = .obj
            [("id", .str ((dfFiveW.frame.index.getD i (Label.nat 0)).render)),
             ("type", .str "Feature"),
             ("properties", .obj props), ("geometry", mappingJson g)] ∧
          props.map Prod.fst =
            dfFiveW.frame.columnNames.filter (fun n => n != dfFiveW.geometry_column_name) ∧
          (dfFiveW.frame.rowAt i).lookup dfFiveW.geometry_column_name = some (Cell.geom g)) :=
  ⟨rfl, to_json_feature_collection_structure dfFiveW docFiveW rfl⟩

/-! ## C4: the three na policies of `to_json` -/

/-- The properties map of the `i`-th feature of a successful `to_json` call is
the rendering of the na-processed, geometry-stripped `i`-th row. -/
lemma to_json_props_at (df : GeoDataFrame) (na : String) (doc : Json) (i : Nat)
    (hi : i < df.frame.nrows) (h : df.to_json na = .ok doc) :
    ∃ props, propsAux ((applyNa na (df.frame.rowAt i)).filter
        (fun p => p.1 != df.geometry_column_name)) = .ok props ∧
      featProps ((docFeatures doc).getD i .null) = props := by
  obtain ⟨feats, hfa, hdoc⟩ := to_json_ok df na doc h
  obtain ⟨hlen, hidx⟩ := featuresAux_ok _ _ _ _ hfa
  have hi2 : i < df.frame.rows.length := by rw [Frame.rows_length]; exact hi
  have hfeat := hidx i hi2
  rw [Frame.rows_getD df.frame i hi] at hfeat
  obtain ⟨props, gj, hprops, _, hfj⟩ := jsonFeature_ok hfeat
  refine ⟨props, hprops, ?_⟩
  rw [hdoc, docFeatures_mk, hfj, featProps_mk]

/-- C4: for a row whose cell in a non-geometry column `k` is missing (NaN):
`na="null"` renders the value as JSON null with every property key present;
`na="drop"` omits `k` from that row's properties only, while every row with a
non-missing value in `k` keeps the key; `na="keep"` keeps the key with the
non-standard numeric NaN token. -/
theorem to_json_na_policies (df : GeoDataFrame) (k : String) (i : Nat)
    (hnd : df.frame.columnNames.Nodup)
    (hkg : k ≠ df.geometry_column_name)
    (hi : i < df.frame.nrows)
    (hcell : (df.frame.rowAt i).lookup k = some Cell.nan) :
    (∀ doc, df.to_json "null" = .ok doc →
      (featProps ((docFeatures doc).getD i .null)).lookup k = some Json.null ∧
      (featProps ((docFeatures doc).getD i .null)).map Prod.fst =
        df.frame.columnNames.filter (fun n => n != df.geometry_column_name))
    ∧ (∀ doc, df.to_json "drop" = .ok doc →
        (featProps ((docFeatures doc).getD i .null)).lookup k = none ∧
        (∀ j c, j < df.frame.nrows → (df.frame.rowAt j).lookup k = some c →
          c.isna = false →
          ∃ jv, (featProps ((docFeatures doc).getD j .null)).lookup k = some jv))
    ∧ (∀ doc, df.to_json "keep" = .ok doc →
        (featProps ((docFeatures doc).getD i .null)).lookup k = some Json.nan) := by
  refine ⟨?_, ?_, ?_⟩
  · intro doc h
    obtain ⟨props, hprops, hfp⟩ := to_json_props_at df "null" doc i hi h
    rw [hfp]
    have hlook : ((applyNa "null" (df.frame.rowAt i)).filter
        (fun p => p.1 != df.geometry_column_name)).lookup k = some Cell.pynone := by
      rw [lookup_filter_key_ne _ _ _ hkg, lookup_applyNa_null, hcell]
      rfl
    obtain ⟨jv, hjv, hpl⟩ := (propsAux_ok _ _ hprops).2.1 k _ hlook
    have hj2 : (Except.ok Json.null : Except Err Json) = .ok jv := hjv
    constructor
    · rw [hpl, ← Except.ok.inj hj2]
    · rw [(propsAux_ok _ _ hprops).1, map_fst_applyNa_null_filter,
        map_fst_filter_key, Frame.rowAt_keys]
  · intro doc h
    constructor
    · obtain ⟨props, hprops, hfp⟩ := to_json_props_at df "drop" doc i hi h
      rw [hfp]
      have hrownd : ((df.frame.rowAt i).map Prod.fst).Nodup := by
        rw [Frame.rowAt_keys]; exact hnd
      have hlook : ((applyNa "drop" (df.frame.rowAt i)).filter
          (fun p => p.1 != df.geometry_column_name)).lookup k = none := by
        rw [lookup_filter_key_ne _ _ _ hkg, applyNa_drop]
        exact lookup_filter_isna_of_nan hrownd hcell
      exact (propsAux_ok _ _ hprops).2.2 k hlook
    · intro j c hj hcj hcna
      obtain ⟨props, hprops, hfp⟩ := to_json_props_at df "drop" doc j hj h
      rw [hfp]
      have hlook : ((applyNa "drop" (df.frame.rowAt j)).filter
          (fun p => p.1 != df.geometry_column_name)).lookup k = some c := by
        rw [lookup_filter_key_ne _ _ _ hkg, applyNa_drop]
        exact lookup_filter_isna_of_some hcj hcna
      obtain ⟨jv, _, hpl⟩ := (propsAux_ok _ _ hprops).2.1 k c hlook
      exact ⟨jv, hpl⟩
  · intro doc h
    obtain ⟨props, hprops, hfp⟩ := to_json_props_at df "keep" doc i hi h
    rw [hfp]
    have hlook : ((applyNa "keep" (df.frame.rowAt i)).filter
        (fun p => p.1 != df.geometry_column_name)).lookup k = some Cell.nan := by
      rw [lookup_filter_key_ne _ _ _ hkg, applyNa_keep, hcell]
    obtain ⟨jv, hjv, hpl⟩ := (propsAux_ok _ _ hprops).2.1 k _ hlook
    have hj2 : (Except.ok Json.nan : Except Err Json) = .ok jv := hjv
    rw [hpl, ← Except.ok.inj hj2]

def dfFourW : GeoDataFrame :=
  ⟨⟨[Label.nat 0, Label.nat 1],
    [("geometry", [ptCell "p0", ptCell "p1"]), ("v", [Cell.nan, Cell.num 5])]⟩,
   none, defaultGeoColName⟩

def docFourNull : Json :=
  .obj [("type", .str "FeatureCollection"),
        ("features", .arr
          [.obj [("id", .str "0"), ("type", .str "Feature"),
             ("properties", .obj [("v", .null)]),
             ("geometry", .obj [("type", .str "Point"), ("coordinates", .str "p0")])],
           .obj [("id", .str "1"), ("type", .str "Feature"),
             ("properties", .obj [("v", .num 5)]),
             ("geometry", .obj [("type", .str "Point"), ("coordinates", .str "p1")])]])]

def docFourDrop : Json :=
  .obj [("type", .str "FeatureCollection"),
        ("features", .arr
          [.obj [("id", .str "0"), ("type", .str "Feature"),
             ("properties", .obj []),
             ("geometry", .obj [("type", .str "Point"), ("coordinates", .str "p0")])],
           .obj [("id", .str "1"), ("type", .str "Feature"),
             ("properties", .obj [("v", .num 5)]),
             ("geometry", .obj [("type", .str "Point"), ("coordinates", .str "p1")])]])]

def docFourKeep : Json :=
  .obj [("type", .str "FeatureCollection"),
        ("features", .arr
          [.obj [("id", .str "0"), ("type", .str "Feature"),
             ("properties", .obj [("v", .nan)]),
             ("geometry", .obj [("type", .str "Point"), ("coordinates", .str "p0")])],
           .obj [("id", .str "1"), ("type", .str "Feature"),
             ("properties", .obj [("v", .num 5)]),
             ("geometry", .obj [("type", .str "Point"), ("coordinates", .str "p1")])]])]

theorem to_json_na_policies_witness :
    dfFourW.frame.columnNames.Nodup
    ∧ ("v" ≠ dfFourW.geometry_column_name)
    ∧ (0 < dfFourW.frame.nrows)
    ∧ ((dfFourW.frame.rowAt 0).lookup "v" = some Cell.nan)
    ∧ ((featProps ((docFeatures docFourNull).getD 0 .null)).lookup "v" = some Json.null ∧
        (featProps ((docFeatures docFourNull).getD 0 .null)).map Prod.fst =
          dfFourW.frame.columnNames.filter (fun n => n != dfFourW.geometry_column_name))
    ∧ ((featProps ((docFeatures docFourDrop).getD 0 .null)).lookup "v" = none)
    ∧ (∃ jv, (featProps ((docFeatures docFourDrop).getD 1 .null)).lookup "v" = some jv)
    ∧ ((featProps ((docFeatures docFourKeep).getD 0 .null)).lookup "v" = some Json.nan) :=
  ⟨by decide, by decide, by decide, rfl,
   (to_json_na_policies dfFourW "v" 0 (by decide) (by decide) (by decide) rfl).1
     docFourNull rfl,
   ((to_json_na_policies dfFourW "v" 0 (by decide) (by decide) (by decide) rfl).2.1
     docFourDrop rfl).1,
   ((to_json_na_policies dfFourW "v" 0 (by decide) (by decide) (by decide) rfl).2.1
     docFourDrop rfl).2 1 (Cell.num 5) (by decide) rfl (by decide),
   (to_json_na_policies dfFourW "v" 0 (by decide) (by decide) (by decide) rfl).2.2
     docFourKeep rfl⟩

end GeoPandas
